import Mathlib

/-!
Verification of the workingWithDataInLWC repository.

The repository contains two Lightning Web Components:
  - `contactList` (src/force-app/main/default/lwc/contactList/contactList.js),
    present in two versions in the file (v1.0 without the `errors` getter,
    v1.1 with it; their `wiredContacts` and `showErrorToast` are identical);
  - `contactCreator` (src/unnamed/part_000).

The shared error-normalization helper `ldsUtils.reduceErrors` is imported by
`contactList` (`import { reduceErrors } from 'c/ldsUtils'`) but its source file
is not part of the repository snapshot; it is modelled here from the
specification's algorithm (spec §4.1).
-/

namespace LWC

/-- An object carrying a single `message` string, as found in page-level and
field-level error sequences (spec §3: "objects each with a `message` string"). -/
structure MsgObj where
  message : String
deriving DecidableEq, Repr

/-- The nested `body` object of an error; its `message` field may be absent. -/
structure BodyObj where
  message : Option String
deriving DecidableEq, Repr

/-- An error-shaped JavaScript object. Each recognized field may be absent
(`none` models the field not being present on the object). An object with all
fields `none` models an object of unrecognized shape such as `{foo: 1}`. -/
structure ErrObject where
  pageErrors : Option (List MsgObj) := none
  fieldErrors : Option (List (String × List MsgObj)) := none
  body : Option BodyObj := none
  message : Option String := none
deriving DecidableEq, Repr

/-- Modelled from the spec: the input domain of `ldsUtils.reduceErrors`
(spec §3 "ErrorInput"), whose source file is absent from the repository.
An input is `null`, `undefined`, a string, an ordered sequence of further
inputs, or an error-shaped object. -/
inductive ErrorInput where
  | null : ErrorInput
  | undef : ErrorInput
  | str (s : String) : ErrorInput
  | list (es : List ErrorInput) : ErrorInput
  | obj (o : ErrObject) : ErrorInput

/-- Whether the object exposes a page-errors field with at least one element
(spec §4.1 rule 2 guard). -/
def hasPageErrors (o : ErrObject) : Bool :=
  match o.pageErrors with
  | some pes => !pes.isEmpty
  | none => false

/-- Whether the object exposes a field-errors mapping with at least one entry
(spec §4.1 rule 3 guard). -/
def hasFieldErrors (o : ErrObject) : Bool :=
  match o.fieldErrors with
  | some fes => !fes.isEmpty
  | none => false

/-- The nested `body.message` string of an object, when present
(spec §4.1 rule 5 guard). -/
def bodyMessage (o : ErrObject) : Option String :=
  o.body.bind BodyObj.message

/-- Flatten a field-errors mapping: for every field in iteration order, emit
every message in that field's error sequence (spec §4.1 rule 3). -/
def fieldErrorMsgs (fes : List (String × List MsgObj)) : List String :=
  (fes.map fun p => p.2.map MsgObj.message).flatten

/-- Modelled from the spec: reduction of an error-shaped object, rules 2, 3,
5, 6 and 8 of the shape dispatch of spec §4.1 (rules 4 and 7 concern inputs
that are not objects). First match wins. -/
def reduceObj (o : ErrObject) : List String :=
  if hasPageErrors o then (o.pageErrors.getD []).map MsgObj.message
  else if hasFieldErrors o then fieldErrorMsgs (o.fieldErrors.getD [])
  else match bodyMessage o with
    | some m => [m]
    | none =>
      match o.message with
      | some m => [m]
      | none => ["Unknown error"]

mutual

/-- Modelled from the spec: `ldsUtils.reduceErrors` (spec §4.1), whose source
file is absent from the repository. Shape dispatch, first match wins:
null/undefined give the empty sequence; a page-errors object, a field-errors
object, a `body.message` object, a `message` object give their messages; a
sequence is reduced recursively and concatenated; a string is returned
verbatim; anything else falls back to "Unknown error". -/
def reduceErrors : ErrorInput → List String
  | .null => []
  | .undef => []
  | .str s => [s]
  | .list es => reduceList es
  | .obj o => reduceObj o

/-- Recursive reduction of a sequence of error inputs, concatenated in
sequence order (spec §4.1 rule 4). -/
def reduceList : List ErrorInput → List String
  | [] => []
  | e :: rest => reduceErrors e ++ reduceList rest

end

/-- JavaScript truthiness of an error input, used by the conditionals
`this.error ?`, `if (result.data)` and `else if (result.error)` in
contactList.js. Of the modelled values, `null`, `undefined` and the empty
string are falsy; non-empty strings, arrays and objects are truthy. -/
def ErrorInput.truthy : ErrorInput → Bool
  | .null => false
  | .undef => false
  | .str s => !(s == "")
  | .list _ => true
  | .obj _ => true

/-- A toast notification configuration, as passed to `ShowToastEvent` in
contactList.js `showErrorToast` and in part_000 `handleSuccess`. -/
structure ToastEvent where
  title : String
  message : String
  variant : String
  mode : Option String := none
deriving DecidableEq, Repr

/-- A Contact record as displayed by the data table
(columns FirstName, LastName, Email in contactList.js). -/
structure Contact where
  FirstName : String
  LastName : String
  Email : String
deriving DecidableEq, Repr

namespace ContactList

/-- The mutable state of the ContactList component: the `contacts`,
`isLoading` and `error` properties of contactList.js. The `error` property
is initially `undefined` and set by `wiredContacts`. -/
structure State where
  contacts : List Contact
  isLoading : Bool
  error : ErrorInput

/-- The initial state of the component: `contacts = []`, `isLoading = true`,
`error` undefined (field initializers of contactList.js). -/
def initialState : State :=
  { contacts := [], isLoading := true, error := .undef }

/-- The result object delivered by the wire service to `wiredContacts`:
`result.data` (a contact list, or absent) and `result.error`
(an error value, or absent). -/
structure WireResult where
  data : Option (List Contact)
  error : Option ErrorInput

/-- Embeds contactList.js `showErrorToast(error)` (identical in v1.0 and
v1.1): builds a toast with a fixed title, a fixed message, variant `error`
and mode `sticky`; the `error` argument is not used in the toast. -/
def showErrorToast (_e : ErrorInput) : ToastEvent :=
  { title := "Error Loading Contacts"
    message := "Unable to retrieve contact data. Please try again."
    variant := "error"
    mode := some "sticky" }

/-- Embeds contactList.js `wiredContacts(result)` (identical in v1.0 and
v1.1): sets `isLoading` to false; if `result.data` is truthy, stores the
data and clears `error`; else if `result.error` is truthy, stores the error,
empties `contacts` and dispatches one error toast. Returns the new state and
the list of dispatched toast events. -/
def wiredContacts (s : State) (result : WireResult) : State × List ToastEvent :=
  let s1 := { s with isLoading := false }
  match result.data with
  | some d => ({ s1 with contacts := d, error := .undef }, [])
  | none =>
    match result.error with
    | some e =>
      if e.truthy then ({ s1 with error := e, contacts := [] }, [showErrorToast e])
      else (s1, [])
    | none => (s1, [])

/-- Embeds the contactList.js v1.1 getter
`get errors() { return this.error ? reduceErrors(this.error) : []; }`. -/
def errors (s : State) : List String :=
  if s.error.truthy then reduceErrors s.error else []

end ContactList

namespace ContactCreator

/-- Embeds part_000 `objectApiName = CONTACT_OBJECT`: the API name of the
target entity type configured on the record-creation form. -/
def objectApiName : String := "Contact"

/-- Embeds part_000 `fields = [FIRST_NAME_FIELD, LAST_NAME_FIELD, EMAIL_FIELD]`:
the ordered field identifiers configured on the record-creation form. -/
def fields : List String := ["FirstName", "LastName", "Email"]

/-- Embeds part_000 `handleSuccess(event)`: given the created record's
identifier `event.detail.id`, dispatches a success toast whose message is
`"Record ID: " + event.detail.id`. Returns the dispatched toast. -/
def handleSuccess (id : String) : ToastEvent :=
  { title := "Contact created"
    message := "Record ID: " ++ id
    variant := "success" }

end ContactCreator

/-- The reduction of a sequence is the concatenation, in order, of the
reductions of its elements. -/
theorem reduceList_eq_flatten (es : List ErrorInput) :
    reduceList es = (es.map reduceErrors).flatten := by
  induction es with
  | nil => rfl
  | cons e rest ih => simp [reduceList, ih]

/-- C1: reduceErrors returns normally for every input whatsoever (null,
undefined, string, sequence, or object of any shape): it is embedded as a
total Lean function on the whole input domain, so every input has a defined
list-of-strings result, the fallback branch absorbing unrecognized shapes. -/
theorem C1_reduceErrors_total :
    ∀ e : ErrorInput, ∃ msgs : List String, reduceErrors e = msgs :=
  fun e => ⟨reduceErrors e, rfl⟩

/-- C2: shape dispatch resolves by the earliest applicable rule: a non-empty
page-errors field wins over everything else on the object; field-errors wins
when page-errors does not apply; `body.message` wins over top-level `message`;
top-level `message` applies only when the earlier shapes do not. In particular
an object with both a non-empty page-errors field and a top-level `message`
reduces via the page-errors branch, ignoring `message`. -/
theorem C2_reduce_precedence :
    (∀ (o : ErrObject) (pes : List MsgObj), o.pageErrors = some pes → pes ≠ [] →
      reduceErrors (.obj o) = pes.map MsgObj.message) ∧
    (∀ (o : ErrObject) (fes : List (String × List MsgObj)),
      hasPageErrors o = false → o.fieldErrors = some fes → fes ≠ [] →
      reduceErrors (.obj o) = fieldErrorMsgs fes) ∧
    (∀ (o : ErrObject) (m : String),
      hasPageErrors o = false → hasFieldErrors o = false → bodyMessage o = some m →
      reduceErrors (.obj o) = [m]) ∧
    (∀ (o : ErrObject) (m : String),
      hasPageErrors o = false → hasFieldErrors o = false → bodyMessage o = none →
      o.message = some m → reduceErrors (.obj o) = [m]) ∧
    reduceErrors (.obj { pageErrors := some [⟨"a"⟩], message := some "m" }) = ["a"] := by
  refine ⟨?_, ?_, ?_, ?_, by decide⟩
  · intro o pes hp hne
    simp [reduceErrors, reduceObj, hasPageErrors, hp, hne]
  · intro o fes hpage hf hne
    simp [reduceErrors, reduceObj, hpage, hasFieldErrors, hf, hne]
  · intro o m hpage hfield hb
    simp [reduceErrors, reduceObj, hpage, hfield, hb]
  · intro o m hpage hfield hb hm
    simp [reduceErrors, reduceObj, hpage, hfield, hb, hm]

/-- Witness for C2 at concrete objects, one per precedence rule. -/
theorem C2_witness :
    reduceErrors (.obj { pageErrors := some [⟨"a"⟩], message := some "m" })
      = [⟨"a"⟩].map MsgObj.message ∧
    reduceErrors (.obj { fieldErrors := some [("Email", [⟨"invalid"⟩])], message := some "m" })
      = fieldErrorMsgs [("Email", [⟨"invalid"⟩])] ∧
    reduceErrors (.obj { body := some ⟨some "b"⟩, message := some "m" }) = ["b"] ∧
    reduceErrors (.obj { message := some "m" }) = ["m"] :=
  ⟨C2_reduce_precedence.1 { pageErrors := some [⟨"a"⟩], message := some "m" }
      [⟨"a"⟩] rfl (by decide),
   C2_reduce_precedence.2.1 { fieldErrors := some [("Email", [⟨"invalid"⟩])], message := some "m" }
      [("Email", [⟨"invalid"⟩])] rfl rfl (by decide),
   C2_reduce_precedence.2.2.1 { body := some ⟨some "b"⟩, message := some "m" }
      "b" rfl rfl rfl,
   C2_reduce_precedence.2.2.2.1 { message := some "m" } "m" rfl rfl rfl rfl⟩

/-- C3 counterexample: the empty sequence is neither null nor undefined, yet
its reduction is empty (rule 4 concatenates the reductions of its zero
elements), so the output length is 0, not at least 1. -/
theorem C3_counterexample :
    ErrorInput.list [] ≠ ErrorInput.null ∧
    ErrorInput.list [] ≠ ErrorInput.undef ∧
    (reduceErrors (ErrorInput.list [])).length = 0 :=
  ⟨(fun h => nomatch h), (fun h => nomatch h), rfl⟩

/-- C3 as amended: for every input that is not null, not undefined, not a
sequence, and such that, if it is reduced via the field-errors branch, at
least one field's error sequence is non-empty, the result has length at
least 1. -/
theorem C3_length_pos (e : ErrorInput)
    (hnull : e ≠ .null) (hundef : e ≠ .undef)
    (hlist : ∀ es, e ≠ .list es)
    (hfield : ∀ o, e = .obj o → hasPageErrors o = false → hasFieldErrors o = true →
      ∃ p ∈ o.fieldErrors.getD [], p.2 ≠ []) :
    1 ≤ (reduceErrors e).length := by
  cases e with
  | null => exact absurd rfl hnull
  | undef => exact absurd rfl hundef
  | str s => simp [reduceErrors]
  | list es => exact absurd rfl (hlist es)
  | obj o =>
    show 1 ≤ (reduceObj o).length
    unfold reduceObj
    by_cases hp : hasPageErrors o = true
    · simp only [hp, if_true]
      unfold hasPageErrors at hp
      cases hpe : o.pageErrors with
      | none => rw [hpe] at hp; exact absurd hp (by simp)
      | some pes =>
        rw [hpe] at hp
        simp only [Bool.not_eq_true'] at hp
        have hne : pes ≠ [] := by
          intro h; rw [h] at hp; simp at hp
        simp [hpe]
        exact List.length_pos.mpr hne
    · simp only [Bool.not_eq_true] at hp
      simp only [hp, Bool.false_eq_true, if_false]
      by_cases hf : hasFieldErrors o = true
      · simp only [hf, if_true]
        obtain ⟨p, hpmem, hpne⟩ := hfield o rfl hp hf
        obtain ⟨m, hm⟩ := List.exists_mem_of_ne_nil p.2 hpne
        have : m.message ∈ fieldErrorMsgs (o.fieldErrors.getD []) := by
          unfold fieldErrorMsgs
          rw [List.mem_flatten]
          exact ⟨p.2.map MsgObj.message, List.mem_map_of_mem _ hpmem, List.mem_map_of_mem _ hm⟩
        exact List.length_pos.mpr (List.ne_nil_of_mem this)
      · simp only [Bool.not_eq_true] at hf
        simp only [hf, Bool.false_eq_true, if_false]
        cases bodyMessage o with
        | some m => simp
        | none => cases o.message with
          | some m => simp
          | none => simp

/-- Witness for C3 as amended, at the plain string input "hi". -/
theorem C3_length_pos_witness :
    1 ≤ (reduceErrors (ErrorInput.str "hi")).length :=
  C3_length_pos (.str "hi") (fun h => nomatch h) (fun h => nomatch h)
    (fun _ h => nomatch h) (fun _ h => nomatch h)

/-- C4: for null and for undefined inputs, reduceErrors returns the empty
sequence. -/
theorem C4_null_undef_empty :
    reduceErrors .null = [] ∧ reduceErrors .undef = [] :=
  ⟨rfl, rfl⟩

/-- C5: a sequence input is reduced recursively element by element and the
results are concatenated in sequence order, fully flattening nested
sequences; in particular the spec's mixed example reduces to
["x", "y", "z"]. -/
theorem C5_list_recursive :
    (∀ es : List ErrorInput, reduceErrors (.list es) = (es.map reduceErrors).flatten) ∧
    reduceErrors (.list [.obj { message := some "x" }, .str "y",
      .obj { body := some ⟨some "z"⟩ }]) = ["x", "y", "z"] ∧
    reduceErrors (.list [.list [.str "a", .obj { message := some "b" }], .str "c"])
      = ["a", "b", "c"] :=
  ⟨fun es => reduceList_eq_flatten es, by decide, by decide⟩

/-- C6: an object exposing none of the recognized shapes (no non-empty
page-errors field, no non-empty field-errors mapping, no `body.message`, no
top-level `message`) reduces to the single fallback string "Unknown error";
the object with no recognized field at all models `{foo: 1}`. -/
theorem C6_fallback (o : ErrObject)
    (h1 : hasPageErrors o = false) (h2 : hasFieldErrors o = false)
    (h3 : bodyMessage o = none) (h4 : o.message = none) :
    reduceErrors (.obj o) = ["Unknown error"] := by
  simp [reduceErrors, reduceObj, h1, h2, h3, h4]

/-- Witness for C6 at the object with no recognized field, modelling
`{foo: 1}`. -/
theorem C6_fallback_witness :
    reduceErrors (.obj {}) = ["Unknown error"] :=
  C6_fallback {} rfl rfl rfl rfl

/-- C7 counterexample: when the wire delivers the error `{message: "Boom"}`,
reduceErrors yields ["Boom"], but the toast the component dispatches carries
the fixed message "Unable to retrieve contact data. Please try again.",
which is not among the reduceErrors strings: the component does not pass the
reducer's output into the notification's message field. -/
theorem C7_counterexample :
    reduceErrors (.obj { message := some "Boom" }) = ["Boom"] ∧
    (ContactList.wiredContacts ContactList.initialState
        { data := none, error := some (.obj { message := some "Boom" }) }).2 =
      [ContactList.showErrorToast (.obj { message := some "Boom" })] ∧
    (ContactList.showErrorToast (.obj { message := some "Boom" })).message ∉
      reduceErrors (.obj { message := some "Boom" }) :=
  ⟨by decide, rfl, by decide⟩

/-- C7 as amended: when the remote list-fetch delivers a (truthy) error, the
component dispatches exactly one notification whose message is the fixed
string "Unable to retrieve contact data. Please try again.", independent of
the error; the reduceErrors strings are instead exposed to the template
through the `errors` getter of the resulting state, and reduceErrors itself
dispatches no notification. -/
theorem C7_toast_fixed_message (s : ContactList.State) (e : ErrorInput)
    (h : e.truthy = true) :
    ((ContactList.wiredContacts s { data := none, error := some e }).2.map
        ToastEvent.message) =
      ["Unable to retrieve contact data. Please try again."] ∧
    ContactList.errors
        (ContactList.wiredContacts s { data := none, error := some e }).1 =
      reduceErrors e := by
  constructor
  · simp [ContactList.wiredContacts, h, ContactList.showErrorToast]
  · simp [ContactList.wiredContacts, h, ContactList.errors]

/-- Witness for C7 as amended at a concrete state and error. -/
theorem C7_toast_fixed_message_witness :
    ((ContactList.wiredContacts ContactList.initialState
        { data := none, error := some (.obj { message := some "Boom" }) }).2.map
        ToastEvent.message) =
      ["Unable to retrieve contact data. Please try again."] ∧
    ContactList.errors
        (ContactList.wiredContacts ContactList.initialState
          { data := none, error := some (.obj { message := some "Boom" }) }).1 =
      reduceErrors (.obj { message := some "Boom" }) :=
  C7_toast_fixed_message ContactList.initialState (.obj { message := some "Boom" }) rfl

/-- C8: the record-creation component is configured with the target entity
type "Contact" and the ordered field identifiers FirstName, LastName, Email,
and for every created record identifier the success handler dispatches a
success toast whose message is "Record ID: " followed by that identifier —
in particular the message contains the identifier. -/
theorem C8_contactCreator :
    ContactCreator.objectApiName = "Contact" ∧
    ContactCreator.fields = ["FirstName", "LastName", "Email"] ∧
    ∀ id : String,
      (ContactCreator.handleSuccess id).variant = "success" ∧
      (ContactCreator.handleSuccess id).message = "Record ID: " ++ id ∧
      ∃ pre : String, (ContactCreator.handleSuccess id).message = pre ++ id :=
  ⟨rfl, rfl, fun _ => ⟨rfl, rfl, ⟨"Record ID: ", rfl⟩⟩⟩

/-- C9: when the wire callback receives a result carrying a (truthy) error
and no data, the post-state has empty contacts, stores that error, is no
longer loading, and exactly one toast — an error toast — is dispatched;
when the callback receives data, the error property is set to undefined. -/
theorem C9_wiredContacts (s : ContactList.State) (e : ErrorInput)
    (h : e.truthy = true) :
    ((ContactList.wiredContacts s { data := none, error := some e }).1.contacts = [] ∧
     (ContactList.wiredContacts s { data := none, error := some e }).1.error = e ∧
     (ContactList.wiredContacts s { data := none, error := some e }).1.isLoading = false ∧
     (ContactList.wiredContacts s { data := none, error := some e }).2 =
       [ContactList.showErrorToast e] ∧
     (ContactList.showErrorToast e).variant = "error") ∧
    (∀ (s2 : ContactList.State) (d : List Contact) (er : Option ErrorInput),
      (ContactList.wiredContacts s2 { data := some d, error := er }).1.error = .undef) := by
  constructor
  · refine ⟨?_, ?_, ?_, ?_, rfl⟩ <;> simp [ContactList.wiredContacts, h]
  · intro s2 d er
    simp [ContactList.wiredContacts]

/-- Witness for C9 at the initial state and the error `{message: "Boom"}`. -/
theorem C9_wiredContacts_witness :
    ((ContactList.wiredContacts ContactList.initialState
        { data := none, error := some (.obj { message := some "Boom" }) }).1.contacts = [] ∧
     (ContactList.wiredContacts ContactList.initialState
        { data := none, error := some (.obj { message := some "Boom" }) }).1.error =
          .obj { message := some "Boom" } ∧
     (ContactList.wiredContacts ContactList.initialState
        { data := none, error := some (.obj { message := some "Boom" }) }).1.isLoading = false ∧
     (ContactList.wiredContacts ContactList.initialState
        { data := none, error := some (.obj { message := some "Boom" }) }).2 =
       [ContactList.showErrorToast (.obj { message := some "Boom" })] ∧
     (ContactList.showErrorToast (.obj { message := some "Boom" })).variant = "error") ∧
    (∀ (s2 : ContactList.State) (d : List Contact) (er : Option ErrorInput),
      (ContactList.wiredContacts s2 { data := some d, error := er }).1.error = .undef) :=
  C9_wiredContacts ContactList.initialState (.obj { message := some "Boom" }) rfl

/-- C10: the `errors` getter returns the empty array whenever the stored
error is falsy (in particular when it is undefined or null), and returns
`reduceErrors` of the stored error otherwise; in the truthy case the stored
error is neither null nor undefined, so reduceErrors is never invoked on a
null or undefined argument. -/
theorem C10_errors_getter (s : ContactList.State) :
    (s.error.truthy = false → ContactList.errors s = []) ∧
    (s.error.truthy = true →
      ContactList.errors s = reduceErrors s.error ∧
      s.error ≠ .null ∧ s.error ≠ .undef) := by
  constructor
  · intro h
    simp [ContactList.errors, h]
  · intro h
    refine ⟨by simp [ContactList.errors, h], ?_, ?_⟩
    · intro hn
      rw [hn] at h
      exact absurd h (by simp [ErrorInput.truthy])
    · intro hn
      rw [hn] at h
      exact absurd h (by simp [ErrorInput.truthy])

/-- Witness for C10 at a falsy state (undefined error) and a truthy state
(a string error). -/
theorem C10_errors_getter_witness :
    ContactList.errors { contacts := [], isLoading := false, error := .undef } = [] ∧
    ContactList.errors { contacts := [], isLoading := false, error := .str "oops" } =
      reduceErrors (.str "oops") :=
  ⟨(C10_errors_getter { contacts := [], isLoading := false, error := .undef }).1 rfl,
   ((C10_errors_getter { contacts := [], isLoading := false, error := .str "oops" }).2 rfl).1⟩

end LWC
